import Mathlib

/-!
Shallow embedding of the SweetShopMa backend (src/web-app/backend/api):
the data model of `models.py` and the state-transition endpoints of
`views.py` (restock, add-to-cart, checkout, attendance create,
monthly summary, reports aggregates, permission classes).

Django `Decimal` columns are modelled by `Rat` (all arithmetic in the
endpoints is exact decimal arithmetic).  The relational store is a record
of lists; foreign keys are ids looked up with `List.find?`.  Endpoints
return the resulting state together with `Except ApiError result`; an
error leaves the state unchanged exactly where the source's early
returns do.
-/

namespace SweetShop

/-- Roles of `User.ROLE_CHOICES` in models.py. -/
inductive Role where
  | Developer
  | Admin
  | Moderator
  | User
deriving DecidableEq, Repr

/-- The custom `User` model (fields relevant to the endpoints). -/
structure User where
  id : Nat
  username : String
  name : String
  role : Role
  monthly_salary : Rat
  is_enabled : Bool
deriving DecidableEq, Repr

/-- Property `User.is_developer`. -/
def User.is_developer (u : User) : Bool := u.role == Role.Developer

/-- Property `User.is_admin`. -/
def User.is_admin (u : User) : Bool := u.role == Role.Admin

/-- Property `User.is_moderator`. -/
def User.is_moderator (u : User) : Bool := u.role == Role.Moderator

/-- Property `User.is_user`. -/
def User.is_user (u : User) : Bool := u.role == Role.User

/-- Property `User.can_manage_users`. -/
def User.can_manage_users (u : User) : Bool := u.is_developer || u.is_admin

/-- Property `User.can_manage_stock`. -/
def User.can_manage_stock (u : User) : Bool :=
  u.is_developer || u.is_admin || u.is_moderator

/-- Python `request.user.name or request.user.username` (empty string is falsy). -/
def nameOrUsername (u : User) : String :=
  if u.name = "" then u.username else u.name

/-- The `Product` model. -/
structure Product where
  id : Nat
  name : String
  emoji : String
  barcode : String
  price : Rat
  stock : Rat
  is_sold_by_weight : Bool
deriving DecidableEq, Repr

/-- The `CartItem` model (user, product) with quantity. -/
structure CartItem where
  userId : Nat
  productId : Nat
  quantity : Rat
deriving DecidableEq, Repr

/-- Statuses of `Order.STATUS_CHOICES`. -/
inductive OrderStatus where
  | Completed
  | Cancelled
deriving DecidableEq, Repr

/-- The `Order` model (denormalized user_name, total, item_count, status). -/
structure Order where
  id : Nat
  userId : Nat
  user_name : String
  total : Rat
  item_count : Int
  status : OrderStatus
deriving DecidableEq, Repr

/-- The `OrderItem` model: snapshot of product fields at order time. -/
structure OrderItem where
  orderId : Nat
  productId : Nat
  product_name : String
  product_emoji : String
  price : Rat
  quantity : Rat
  is_sold_by_weight : Bool
deriving DecidableEq, Repr

/-- Property `OrderItem.item_total`. -/
def OrderItem.item_total (oi : OrderItem) : Rat := oi.price * oi.quantity

/-- A calendar date as stored by the `DateField`. -/
structure CalDate where
  year : Nat
  month : Nat
  dayOfMonth : Nat
deriving DecidableEq, Repr

/-- The `AttendanceRecord` model (fields used by the endpoints). -/
structure AttendanceRecord where
  userId : Nat
  user_name : String
  date : CalDate
  is_present : Bool
  regular_hours : Rat
  overtime_hours : Rat
  daily_pay : Rat
deriving DecidableEq, Repr

/-- Property `AttendanceRecord.total_hours`. -/
def AttendanceRecord.total_hours (r : AttendanceRecord) : Rat :=
  r.regular_hours + r.overtime_hours

/-- The `RestockRecord` model. -/
structure RestockRecord where
  productId : Nat
  product_name : String
  product_emoji : String
  quantity_added : Rat
  stock_before : Rat
  stock_after : Rat
  userId : Nat
  user_name : String
deriving DecidableEq, Repr

/-- HTTP-level error responses of the endpoints. -/
inductive ApiError where
  | badRequest (msg : String)
  | notFound (msg : String)
  | conflict (msg : String)
deriving DecidableEq, Repr

/-- HTTP status code of each error class. -/
def ApiError.statusCode : ApiError → Nat
  | .badRequest _ => 400
  | .notFound _ => 404
  | .conflict _ => 409

/-- The relational store: one list per table, plus the order id sequence. -/
structure State where
  users : List User
  products : List Product
  cart : List CartItem
  orders : List Order
  orderItems : List OrderItem
  attendance : List AttendanceRecord
  restocks : List RestockRecord
  nextOrderId : Nat
deriving Repr

/-- Lookup `Product.objects.get(id=pid)`. -/
def findProduct (ps : List Product) (pid : Nat) : Option Product :=
  ps.find? (fun p => p.id == pid)

/-- Persist a stock change on the product row with the given id. -/
def updateStock (ps : List Product) (pid : Nat) (f : Rat → Rat) : List Product :=
  ps.map (fun p => if p.id == pid then { p with stock := f p.stock } else p)

/-- Endpoint `ProductViewSet.restock` (views.py 103-128): 404 on unknown product,
400 on quantity ≤ 0, otherwise add the quantity to the stock and append a
`RestockRecord` snapshotting before/after. -/
def restock (s : State) (actor : User) (pid : Nat) (quantity : Rat) :
    State × Except ApiError Rat :=
  match findProduct s.products pid with
  | none => (s, .error (.notFound "Not found"))
  | some product =>
    if quantity ≤ 0 then
      (s, .error (.badRequest "Quantity must be greater than 0"))
    else
      let stock_before := product.stock
      let newStock := product.stock + quantity
      let record : RestockRecord :=
        { productId := pid
          product_name := product.name
          product_emoji := product.emoji
          quantity_added := quantity
          stock_before := stock_before
          stock_after := newStock
          userId := actor.id
          user_name := nameOrUsername actor }
      ({ s with
          products := updateStock s.products pid (fun st => st + quantity)
          restocks := s.restocks ++ [record] },
       .ok newStock)

/-- Endpoint `CartViewSet.create` (views.py 140-165): 404 on unknown product;
`get_or_create` on (user, product) — a fresh row is created with the given
quantity with no stock check; an existing row is summed and rejected with
"Insufficient stock" when the new total exceeds the product's stock. -/
def addToCart (s : State) (actor : User) (pid : Nat) (quantity : Rat) :
    State × Except ApiError CartItem :=
  match findProduct s.products pid with
  | none => (s, .error (.notFound "Product not found"))
  | some product =>
    match s.cart.find? (fun ci => ci.userId == actor.id && ci.productId == pid) with
    | none =>
      let row : CartItem := { userId := actor.id, productId := pid, quantity := quantity }
      ({ s with cart := s.cart ++ [row] }, .ok row)
    | some row =>
      let new_quantity := row.quantity + quantity
      if product.stock < new_quantity then
        (s, .error (.badRequest "Insufficient stock"))
      else
        ({ s with cart := s.cart.map (fun ci =>
            if ci.userId == actor.id && ci.productId == pid then
              { ci with quantity := new_quantity }
            else ci) },
         .ok { row with quantity := new_quantity })

/-- Python `int(Decimal(...))`: truncation toward zero. -/
def truncQ (q : Rat) : Int := q.num.tdiv q.den

/-- The user's cart rows, `CartItem.objects.filter(user=...)`. -/
def userCart (s : State) (uid : Nat) : List CartItem :=
  s.cart.filter (fun ci => ci.userId == uid)

/-- Python `sum(item.item_total for item in cart_items)` where
`CartItem.item_total = product.price * quantity`; `none` when a cart row's
product does not exist (unrepresentable under the FK constraint). -/
def cartTotal (ps : List Product) (rows : List CartItem) : Option Rat :=
  rows.foldr
    (fun ci acc =>
      match acc, findProduct ps ci.productId with
      | some t, some p => some (p.price * ci.quantity + t)
      | _, _ => none)
    (some 0)

/-- The `OrderItem.objects.create(...)` call of checkout: snapshot of the
product's name, emoji, price and weight flag with the cart quantity. -/
def snapshotItem (orderId : Nat) (p : Product) (ci : CartItem) : OrderItem :=
  { orderId := orderId
    productId := ci.productId
    product_name := p.name
    product_emoji := p.emoji
    price := p.price
    quantity := ci.quantity
    is_sold_by_weight := p.is_sold_by_weight }

/-- The per-row loop of checkout (views.py 207-220): for each cart row,
create the snapshot `OrderItem` and decrement the product's stock by the
cart quantity.  `none` when a row's product is missing. -/
def processRows (orderId : Nat) (ps : List Product) :
    List CartItem → Option (List OrderItem × List Product)
  | [] => some ([], ps)
  | ci :: rest =>
    match findProduct ps ci.productId with
    | none => none
    | some p =>
      match processRows orderId (updateStock ps ci.productId (fun st => st - ci.quantity)) rest with
      | none => none
      | some (ois, ps2) => some (snapshotItem orderId p ci :: ois, ps2)

/-- Endpoint `OrderViewSet.checkout` (views.py 185-226): 400 on an empty cart;
otherwise compute total and truncated item count, create one Completed
`Order`, one `OrderItem` per cart row, decrement each product's stock by
the cart quantity, and delete the user's cart rows. -/
def checkout (s : State) (actor : User) : State × Except ApiError Order :=
  let rows := userCart s actor.id
  if rows.isEmpty then
    (s, .error (.badRequest "Cart is empty"))
  else
    match cartTotal s.products rows with
    -- a cart row with no product row violates the FK constraint and cannot
    -- occur in the database; the model surfaces it as a failed request
    | none => (s, .error (.badRequest "Product missing"))
    | some total =>
      let order : Order :=
        { id := s.nextOrderId
          userId := actor.id
          user_name := nameOrUsername actor
          total := total
          item_count := (rows.map (fun ci => truncQ ci.quantity)).sum
          status := OrderStatus.Completed }
      match processRows order.id s.products rows with
      | none => (s, .error (.badRequest "Product missing"))
      | some (ois, ps2) =>
        ({ s with
            products := ps2
            orders := s.orders ++ [order]
            orderItems := s.orderItems ++ ois
            cart := s.cart.filter (fun ci => !(ci.userId == actor.id))
            nextOrderId := s.nextOrderId + 1 },
         .ok order)

/-- Permission `IsDeveloperOrAdmin.has_permission` (views.py 20-23). -/
def IsDeveloperOrAdmin (u : User) : Bool := u.is_developer || u.is_admin

/-- Permission `IsDeveloperAdminOrModerator.has_permission` (views.py 26-29). -/
def IsDeveloperAdminOrModerator (u : User) : Bool :=
  u.is_developer || u.is_admin || u.is_moderator

/-- Gate `ReportsView.permission_classes` (views.py 359-361): the reports
endpoint admits exactly the users passing `IsDeveloperAdminOrModerator`. -/
def reportsPermission (u : User) : Bool := IsDeveloperAdminOrModerator u

/-- Aggregate `Order.objects.aggregate(total=Sum('total'))['total'] or Decimal('0.00')`
(views.py 366). -/
def total_sales (s : State) : Rat := (s.orders.map Order.total).sum

/-- Count `Order.objects.count()` (views.py 369). -/
def total_orders (s : State) : Nat := s.orders.length

/-- Guarded division `total_sales / total_orders if total_orders > 0 else Decimal('0.00')`
(views.py 372). -/
def average_order_value (s : State) : Rat :=
  if 0 < total_orders s then total_sales s / (total_orders s : Rat) else 0

/-- Aggregate `OrderItem.objects.aggregate(total=Sum('quantity'))['total'] or 0`
(views.py 375). -/
def total_items_sold (s : State) : Rat := (s.orderItems.map OrderItem.quantity).sum

/-- The request body of `AttendanceRecordViewSet.create`: `user_id` and
`date` as optionally-present fields, the remaining serializer fields with
their model defaults. -/
structure AttendanceInput where
  user_id : Option Nat
  date : Option CalDate
  user_name : Option String
  is_present : Bool
  regular_hours : Rat
  overtime_hours : Rat
  daily_pay : Rat
deriving DecidableEq, Repr

/-- Test that `AttendanceRecord.objects.filter(user_id=..., date=...).first()` is
non-empty. -/
def hasRecord (recs : List AttendanceRecord) (uid : Nat) (d : CalDate) : Bool :=
  recs.any (fun r => r.userId == uid && r.date == d)

/-- Validation `AttendanceRecordSerializer.is_valid()`: `user_id` must reference an
existing user and `date` and `user_name` must be present (the required
fields of the serializer); field-level formats are already parsed here. -/
def serializerValid (s : State) (inp : AttendanceInput) : Bool :=
  (match inp.user_id with
   | some uid => (s.users.find? (fun u => u.id == uid)).isSome
   | none => false)
  && inp.date.isSome && inp.user_name.isSome

/-- Rendering of the request's date, as interpolated into the duplicate
message; both duplicate paths interpolate the same value. -/
def dateToString (d : CalDate) : String :=
  toString d.year ++ "-" ++ toString d.month ++ "-" ++ toString d.dayOfMonth

/-- The duplicate message f-string of views.py line 256, interpolating the date. -/
def dupMsg (d : CalDate) : String :=
  "Attendance record already exists for this employee on " ++ dateToString d

/-- The database's `IntegrityError` text for a violation of
`unique_together = ['user', 'date']` on `AttendanceRecord`. -/
def uniqueErrText : String :=
  "UNIQUE constraint failed: api_attendancerecord.user_id, api_attendancerecord.date"

/-- Python `pat in hay` on strings. -/
def strContains (hay pat : String) : Bool := decide (pat.toList <:+: hay.toList)

/-- Python `str.lower()` (the integrity-error text is ASCII). -/
def strLower (s : String) : String := String.mk (s.toList.map Char.toLower)

/-- Endpoint `AttendanceRecordViewSet.create` (views.py 242-312).  `concurrent`
holds rows committed by other requests between the duplicate pre-check and
this request's write, so the storage uniqueness constraint can still
reject the write after the pre-check passed.  The flow: pre-check on
(user_id, date) → 409; serializer validation → 400; write, mapped to 409
with the same message when the constraint's `IntegrityError` mentions a
unique/duplicate violation. -/
def attendanceCreate (s : State) (inp : AttendanceInput)
    (concurrent : List AttendanceRecord) : State × Except ApiError AttendanceRecord :=
  match inp.user_id, inp.date with
  | some uid, some d =>
    if hasRecord s.attendance uid d then
      (s, .error (.conflict (dupMsg d)))
    else if !(serializerValid s inp) then
      (s, .error (.badRequest "Validation error"))
    else
      let committed := s.attendance ++ concurrent
      if hasRecord committed uid d then
        if strContains (strLower uniqueErrText) "unique"
            || strContains (strLower uniqueErrText) "duplicate" then
          ({ s with attendance := committed }, .error (.conflict (dupMsg d)))
        else
          ({ s with attendance := committed },
           .error (.badRequest "Database error occurred while creating attendance record"))
      else
        match s.users.find? (fun u => u.id == uid) with
        | some user =>
          let row : AttendanceRecord :=
            { userId := uid
              user_name := inp.user_name.getD (nameOrUsername user)
              date := d
              is_present := inp.is_present
              regular_hours := inp.regular_hours
              overtime_hours := inp.overtime_hours
              daily_pay := inp.daily_pay }
          ({ s with attendance := committed ++ [row] }, .ok row)
        | none => (s, .error (.badRequest "Validation error"))
  | _, _ =>
    -- missing user_id or date: the pre-check is skipped and the
    -- serializer rejects the request
    (s, .error (.badRequest "Validation error"))

/-- One row of the monthly summary response. -/
structure MonthlySummary where
  user_id : Nat
  user_name : String
  present_days : Nat
  absent_days : Nat
  total_hours : Rat
  total_pay : Rat
deriving DecidableEq, Repr

/-- Query `AttendanceRecord.objects.filter(user=user, date__year=year,
date__month=month)`. -/
def monthRecords (s : State) (year month : Nat) (u : User) : List AttendanceRecord :=
  s.attendance.filter (fun r =>
    r.userId == u.id && r.date.year == year && r.date.month == month)

/-- The per-user aggregate of `monthly_summary` (views.py 328-347). -/
def summaryFor (s : State) (year month : Nat) (u : User) : MonthlySummary :=
  let records := monthRecords s year month u
  { user_id := u.id
    user_name := nameOrUsername u
    present_days := (records.filter (fun r => r.is_present)).length
    absent_days := (records.filter (fun r => !r.is_present)).length
    total_hours := (records.map AttendanceRecord.total_hours).sum
    total_pay := (records.map AttendanceRecord.daily_pay).sum }

/-- Endpoint `AttendanceRecordViewSet.monthly_summary` (views.py 314-349): one
aggregate entry for every enabled user. -/
def monthly_summary (s : State) (year month : Nat) : List MonthlySummary :=
  (s.users.filter (fun u => u.is_enabled)).map (summaryFor s year month)

/-- Property `CartItem.item_total = product.price * quantity` (models.py 91-93),
read against the product table; a missing product is an FK violation and
contributes 0 here. -/
def CartItem.item_total (ps : List Product) (ci : CartItem) : Rat :=
  match findProduct ps ci.productId with
  | some p => p.price * ci.quantity
  | none => 0

/-- The snapshot `OrderItem` a cart row yields at checkout, when its
product exists. -/
def snapRow (orderId : Nat) (ps : List Product) (ci : CartItem) : Option OrderItem :=
  (findProduct ps ci.productId).map (fun p => snapshotItem orderId p ci)

/-! Sample fixtures for the concrete instantiations below. -/

/-- Fixture: an ordinary customer. -/
def alice : User :=
  { id := 1, username := "alice", name := "Alice", role := Role.User,
    monthly_salary := 0, is_enabled := true }

/-- Fixture: a moderator. -/
def bob : User :=
  { id := 2, username := "bob", name := "Bob", role := Role.Moderator,
    monthly_salary := 1500, is_enabled := true }

/-- Fixture: a product priced 2.49 with stock 10. -/
def choc : Product :=
  { id := 1, name := "Chocolate", emoji := "CH", barcode := "111",
    price := 249/100, stock := 10, is_sold_by_weight := false }

/-- Fixture: a product priced 1.00 with stock 5, sold by weight. -/
def gummy : Product :=
  { id := 2, name := "Gummy", emoji := "GU", barcode := "222",
    price := 1, stock := 5, is_sold_by_weight := true }

/-- Fixture: two users, two products, everything else empty. -/
def baseState : State :=
  { users := [alice, bob], products := [choc, gummy], cart := [], orders := [],
    orderItems := [], attendance := [], restocks := [], nextOrderId := 1 }

/-- Fixture: the spec's checkout example cart, qty 3 of the 2.49 product and
qty 2 of the 1.00 product. -/
def exampleCartState : State := { baseState with cart := [⟨1, 1, 3⟩, ⟨1, 2, 2⟩] }

/-- Fixture: one completed order of total 10. -/
def oneOrderState : State :=
  { baseState with orders := [⟨1, 1, "Alice", 10, 3, OrderStatus.Completed⟩] }

/-- Fixture: a cart quantity of 100 against a stock of 10. -/
def overdraftState : State := { baseState with cart := [⟨1, 1, 100⟩] }

/-- Fixture: a calendar date. -/
def jan5 : CalDate := ⟨2024, 1, 5⟩

/-- Fixture: an attendance record for alice on jan5. -/
def aliceJan5 : AttendanceRecord :=
  { userId := 1, user_name := "Alice", date := jan5, is_present := true,
    regular_hours := 8, overtime_hours := 0, daily_pay := 100 }

/-- Fixture: a state already holding the alice/jan5 attendance record. -/
def dupState : State := { baseState with attendance := [aliceJan5] }

/-- Fixture: a request body for an attendance record for alice on jan5. -/
def attInput : AttendanceInput :=
  { user_id := some 1, date := some jan5, user_name := some "Alice",
    is_present := true, regular_hours := 8, overtime_hours := 0, daily_pay := 100 }

/-! Helper lemmas about the product table. -/

theorem findProduct_updateStock_self (ps : List Product) (pid : Nat) (f : Rat → Rat) :
    findProduct (updateStock ps pid f) pid =
      (findProduct ps pid).map (fun p => { p with stock := f p.stock }) := by
  induction ps with
  | nil => rfl
  | cons p rest ih =>
    by_cases h : p.id = pid
    · simp [findProduct, updateStock, h]
    · simp only [findProduct, updateStock, List.map_cons] at ih ⊢
      rw [if_neg (by simp [h]), List.find?_cons_of_neg _ (by simp [h]),
        List.find?_cons_of_neg _ (by simp [h])]
      exact ih

theorem findProduct_updateStock_ne (ps : List Product) (pid pid' : Nat) (f : Rat → Rat)
    (h : pid' ≠ pid) :
    findProduct (updateStock ps pid f) pid' = findProduct ps pid' := by
  induction ps with
  | nil => rfl
  | cons p rest ih =>
    simp only [findProduct, updateStock, List.map_cons] at ih ⊢
    by_cases hp : p.id = pid
    · have hne : ¬ pid = pid' := fun e => h e.symm
      rw [if_pos (by simp [hp]), List.find?_cons_of_neg _ (by simp [hp, hne]),
        List.find?_cons_of_neg _ (by simp [hp, hne])]
      exact ih
    · rw [if_neg (by simp [hp])]
      by_cases hq : p.id = pid'
      · rw [List.find?_cons_of_pos _ (by simp [hq]), List.find?_cons_of_pos _ (by simp [hq])]
      · rw [List.find?_cons_of_neg _ (by simp [hq]), List.find?_cons_of_neg _ (by simp [hq])]
        exact ih

theorem findProduct_mem (ps : List Product) (pid : Nat) (p : Product)
    (h : findProduct ps pid = some p) : p ∈ ps ∧ p.id = pid := by
  refine ⟨List.mem_of_find?_eq_some h, ?_⟩
  have := List.find?_some h
  simpa using this

theorem findProduct_eq_of_nodup (ps : List Product) (pid : Nat) (p : Product)
    (hnd : (ps.map Product.id).Nodup) (hmem : p ∈ ps) (hid : p.id = pid) :
    findProduct ps pid = some p := by
  induction ps with
  | nil => simp at hmem
  | cons q rest ih =>
    simp only [List.map_cons, List.nodup_cons] at hnd
    rcases List.mem_cons.mp hmem with rfl | hmem'
    · simp [findProduct, hid]
    · by_cases hq : q.id = pid
      · exact absurd (by rw [hq, ← hid]; exact List.mem_map_of_mem _ hmem') hnd.1
      · rw [findProduct, List.find?_cons_of_neg _ (by simp [hq])]
        exact ih hnd.2 hmem'

theorem updateStock_map_id (ps : List Product) (pid : Nat) (f : Rat → Rat) :
    (updateStock ps pid f).map Product.id = ps.map Product.id := by
  simp only [updateStock, List.map_map]
  refine List.map_congr_left ?_
  intro p _
  by_cases h : p.id = pid <;> simp [Function.comp, h]

/-! Claim theorems. -/

/-- C8: for every product and quantity q ≤ 0, restock fails with a 400
validation error, the state (hence the product's stock and the restock log)
is unchanged. -/
theorem restock_nonpositive_rejected (s : State) (actor : User) (pid : Nat)
    (q : Rat) (p : Product)
    (hp : findProduct s.products pid = some p) (hq : q ≤ 0) :
    restock s actor pid q =
      (s, .error (.badRequest "Quantity must be greater than 0")) := by
  simp [restock, hp, hq]

/-- Witness for C8 at a concrete product and quantity 0. -/
theorem restock_nonpositive_rejected_witness :
    restock baseState bob 1 0 =
      (baseState, .error (.badRequest "Quantity must be greater than 0")) :=
  restock_nonpositive_rejected baseState bob 1 0 choc rfl (by norm_num)

/-- C2: for every product and quantity q > 0, restock sets the product's
stock to its prior value plus q and appends exactly one RestockRecord whose
before/after snapshots match, with stock_after = stock_before + quantity_added. -/
theorem restock_increments_and_audits (s : State) (actor : User) (pid : Nat)
    (q : Rat) (p : Product)
    (hp : findProduct s.products pid = some p) (hq : 0 < q) :
    (restock s actor pid q).2 = .ok (p.stock + q)
    ∧ findProduct (restock s actor pid q).1.products pid
        = some { p with stock := p.stock + q }
    ∧ (restock s actor pid q).1.restocks = s.restocks ++
        [{ productId := pid, product_name := p.name, product_emoji := p.emoji,
           quantity_added := q, stock_before := p.stock, stock_after := p.stock + q,
           userId := actor.id, user_name := nameOrUsername actor }]
    ∧ ∀ r ∈ (restock s actor pid q).1.restocks, r ∈ s.restocks ∨
        r.stock_after = r.stock_before + r.quantity_added := by
  have hq' : ¬ q ≤ 0 := not_le.mpr hq
  refine ⟨?_, ?_, ?_, ?_⟩
  · simp [restock, hp, hq']
  · simp [restock, hp, hq', findProduct_updateStock_self]
  · simp [restock, hp, hq']
  · intro r hr
    have h3 : (restock s actor pid q).1.restocks = s.restocks ++
        [{ productId := pid, product_name := p.name, product_emoji := p.emoji,
           quantity_added := q, stock_before := p.stock, stock_after := p.stock + q,
           userId := actor.id, user_name := nameOrUsername actor }] := by
      simp [restock, hp, hq']
    rw [h3] at hr
    rcases List.mem_append.mp hr with h1 | h1
    · exact Or.inl h1
    · rw [List.mem_singleton.mp h1]
      exact Or.inr rfl

/-- Witness for C2: restocking 2.5 units onto stock 10. -/
theorem restock_increments_and_audits_witness :
    (restock baseState bob 1 (5/2)).2 = .ok (choc.stock + 5/2)
    ∧ findProduct (restock baseState bob 1 (5/2)).1.products 1
        = some { choc with stock := choc.stock + 5/2 }
    ∧ (restock baseState bob 1 (5/2)).1.restocks = baseState.restocks ++
        [{ productId := 1, product_name := choc.name, product_emoji := choc.emoji,
           quantity_added := 5/2, stock_before := choc.stock,
           stock_after := choc.stock + 5/2,
           userId := bob.id, user_name := nameOrUsername bob }]
    ∧ ∀ r ∈ (restock baseState bob 1 (5/2)).1.restocks, r ∈ baseState.restocks ∨
        r.stock_after = r.stock_before + r.quantity_added :=
  restock_increments_and_audits baseState bob 1 (5/2) choc rfl (by norm_num)

/-- C9: with no orders the average order value is 0 (no division is
attempted), and with at least one order it equals total sales divided by
the order count. -/
theorem average_order_value_spec (s : State) :
    (s.orders = [] → average_order_value s = 0)
    ∧ (s.orders ≠ [] →
        average_order_value s = total_sales s / (total_orders s : Rat)) := by
  constructor
  · intro h
    simp [average_order_value, total_orders, h]
  · intro h
    simp [average_order_value, total_orders, List.length_pos.mpr h]

/-- Witness for C9 at an empty ledger and at a one-order ledger. -/
theorem average_order_value_spec_witness :
    average_order_value baseState = 0
    ∧ average_order_value oneOrderState
        = total_sales oneOrderState / (total_orders oneOrderState : Rat) :=
  ⟨(average_order_value_spec baseState).1 rfl,
   (average_order_value_spec oneOrderState).2 (by simp [oneOrderState])⟩

/-- C6 counterexample: a Moderator passes the reports permission gate, so the
reports endpoint is not restricted to Admin/Developer. -/
theorem reports_admits_moderator :
    bob.role = Role.Moderator ∧ reportsPermission bob = true :=
  ⟨rfl, rfl⟩

/-- C6 (amended): the reports endpoint admits exactly the users whose role is
Developer, Admin or Moderator; only role User is rejected. -/
theorem reportsPermission_iff (u : User) :
    reportsPermission u = true ↔ u.role ≠ Role.User := by
  rcases u with ⟨i, un, n, r, sal, en⟩
  cases r <;>
    simp [reportsPermission, IsDeveloperAdminOrModerator, User.is_developer,
      User.is_admin, User.is_moderator]

/-- C10: when the user has no cart row for the product, add-to-cart creates
the row with the given quantity and succeeds with no stock check; and an
insufficient-stock rejection can only happen when a row already exists. -/
theorem addToCart_fresh_unchecked (s : State) (actor : User) (pid : Nat) (q : Rat) :
    (∀ p, findProduct s.products pid = some p →
      s.cart.find? (fun ci => ci.userId == actor.id && ci.productId == pid) = none →
      addToCart s actor pid q =
        ({ s with cart := s.cart ++ [⟨actor.id, pid, q⟩] }, .ok ⟨actor.id, pid, q⟩))
    ∧ ((addToCart s actor pid q).2 = .error (.badRequest "Insufficient stock") →
        ∃ ci ∈ s.cart, ci.userId = actor.id ∧ ci.productId = pid) := by
  constructor
  · intro p hp hrow
    simp [addToCart, hp, hrow]
  · intro herr
    unfold addToCart at herr
    rcases hfind : findProduct s.products pid with _ | p
    · rw [hfind] at herr
      simp at herr
    · rw [hfind] at herr
      rcases hrow : s.cart.find?
          (fun ci => ci.userId == actor.id && ci.productId == pid) with _ | row
      · rw [hrow] at herr
        simp at herr
      · refine ⟨row, List.mem_of_find?_eq_some hrow, ?_⟩
        have := List.find?_some hrow
        simp only [Bool.and_eq_true, beq_iff_eq] at this
        exact this

/-- Witness for C10: quantity 100 against stock 10 still creates the row. -/
theorem addToCart_fresh_unchecked_witness :
    addToCart baseState alice 1 100 =
      ({ baseState with cart := baseState.cart ++ [⟨alice.id, 1, 100⟩] },
       .ok ⟨alice.id, 1, 100⟩) :=
  (addToCart_fresh_unchecked baseState alice 1 100).1 choc rfl rfl

/-- C5: adding the same product twice without exceeding stock merges into a
single cart row carrying the summed quantity, never two rows; and when a
row already exists and the summed quantity exceeds the product's stock, the
add fails with an insufficient-stock error leaving the state unchanged. -/
theorem cart_add_merges_not_duplicates (s : State) (actor : User) (pid : Nat)
    (p : Product) (q1 q2 : Rat)
    (hp : findProduct s.products pid = some p)
    (hnone : s.cart.find? (fun ci => ci.userId == actor.id && ci.productId == pid) = none)
    (hstock : ¬ p.stock < q1 + q2) :
    ((addToCart (addToCart s actor pid q1).1 actor pid q2).2
        = .ok ⟨actor.id, pid, q1 + q2⟩
      ∧ (addToCart (addToCart s actor pid q1).1 actor pid q2).1.cart.filter
          (fun ci => ci.userId == actor.id && ci.productId == pid)
          = [⟨actor.id, pid, q1 + q2⟩])
    ∧ (∀ (s' : State) (row : CartItem) (q : Rat),
        findProduct s'.products pid = some p →
        s'.cart.find? (fun ci => ci.userId == actor.id && ci.productId == pid)
          = some row →
        p.stock < row.quantity + q →
        addToCart s' actor pid q = (s', .error (.badRequest "Insufficient stock"))) := by
  constructor
  · have h1 : addToCart s actor pid q1 =
        ({ s with cart := s.cart ++ [⟨actor.id, pid, q1⟩] },
         .ok ⟨actor.id, pid, q1⟩) := by
      simp [addToCart, hp, hnone]
    have hfind1 : ((s.cart ++ [(⟨actor.id, pid, q1⟩ : CartItem)]).find?
        (fun ci => ci.userId == actor.id && ci.productId == pid))
        = some ⟨actor.id, pid, q1⟩ := by
      rw [List.find?_append, hnone]
      simp
    have h2 : addToCart (addToCart s actor pid q1).1 actor pid q2 =
        ({ s with cart :=
            (s.cart ++ [(⟨actor.id, pid, q1⟩ : CartItem)]).map (fun ci =>
              if ci.userId == actor.id && ci.productId == pid then
                { ci with quantity := q1 + q2 }
              else ci) },
         .ok ⟨actor.id, pid, q1 + q2⟩) := by
      rw [h1]
      simp only [addToCart, hp, hfind1]
      rw [if_neg hstock]
    rw [h2]
    refine ⟨rfl, ?_⟩
    have hmap : (s.cart.map (fun ci =>
        if ci.userId == actor.id && ci.productId == pid then
          { ci with quantity := q1 + q2 }
        else ci)) = s.cart := by
      have := List.find?_eq_none.mp hnone
      calc s.cart.map (fun ci =>
              if ci.userId == actor.id && ci.productId == pid then
                { ci with quantity := q1 + q2 }
              else ci)
          = s.cart.map id := List.map_congr_left (by
            intro ci hci
            rw [if_neg (this ci hci)]
            rfl)
        _ = s.cart := List.map_id s.cart
    simp only [List.map_append, hmap]
    rw [List.filter_append]
    have hnil : s.cart.filter
        (fun ci => ci.userId == actor.id && ci.productId == pid) = [] :=
      List.filter_eq_nil_iff.mpr (List.find?_eq_none.mp hnone)
    rw [hnil]
    simp
  · intro s' row q hp' hrow hover
    simp [addToCart, hp', hrow, hover]

/-- Witness for C5: adding 2 then 3 units of the stock-10 product merges to a
single row of quantity 5. -/
theorem cart_add_merges_not_duplicates_witness :
    ((addToCart (addToCart baseState alice 1 2).1 alice 1 3).2
        = .ok ⟨alice.id, 1, 2 + 3⟩
      ∧ (addToCart (addToCart baseState alice 1 2).1 alice 1 3).1.cart.filter
          (fun ci => ci.userId == alice.id && ci.productId == 1)
          = [⟨alice.id, 1, 2 + 3⟩])
    ∧ (∀ (s' : State) (row : CartItem) (q : Rat),
        findProduct s'.products 1 = some choc →
        s'.cart.find? (fun ci => ci.userId == alice.id && ci.productId == 1)
          = some row →
        choc.stock < row.quantity + q →
        addToCart s' alice 1 q = (s', .error (.badRequest "Insufficient stock"))) :=
  cart_add_merges_not_duplicates baseState alice 1 choc 2 3 rfl rfl
    (by norm_num [choc])

/-- C7: monthly_summary has one entry per enabled user, aggregating that
user's records in the month; an enabled user with no records in the month
still appears, with all four aggregates zero. -/
theorem monthly_summary_covers_enabled_users (s : State) (year month : Nat)
    (u : User) (hu : u ∈ s.users) (hen : u.is_enabled = true) :
    (monthly_summary s year month).length
        = (s.users.filter (fun v => v.is_enabled)).length
    ∧ summaryFor s year month u ∈ monthly_summary s year month
    ∧ (summaryFor s year month u).user_id = u.id
    ∧ (summaryFor s year month u).present_days
        = ((monthRecords s year month u).filter (fun r => r.is_present)).length
    ∧ (summaryFor s year month u).absent_days
        = ((monthRecords s year month u).filter (fun r => !r.is_present)).length
    ∧ (summaryFor s year month u).total_hours
        = ((monthRecords s year month u).map AttendanceRecord.total_hours).sum
    ∧ (summaryFor s year month u).total_pay
        = ((monthRecords s year month u).map AttendanceRecord.daily_pay).sum
    ∧ (monthRecords s year month u = [] →
        (summaryFor s year month u).present_days = 0
        ∧ (summaryFor s year month u).absent_days = 0
        ∧ (summaryFor s year month u).total_hours = 0
        ∧ (summaryFor s year month u).total_pay = 0) := by
  refine ⟨by simp [monthly_summary], ?_, rfl, rfl, rfl, rfl, rfl, ?_⟩
  · exact List.mem_map_of_mem _ (List.mem_filter.mpr ⟨hu, hen⟩)
  · intro h0
    simp [summaryFor, h0]

/-- Witness for C7: alice is enabled with no records, and appears in the
summary with zero aggregates. -/
theorem monthly_summary_covers_enabled_users_witness :
    summaryFor baseState 2024 1 alice ∈ monthly_summary baseState 2024 1
    ∧ (summaryFor baseState 2024 1 alice).present_days = 0
    ∧ (summaryFor baseState 2024 1 alice).absent_days = 0
    ∧ (summaryFor baseState 2024 1 alice).total_hours = 0
    ∧ (summaryFor baseState 2024 1 alice).total_pay = 0 :=
  have h := monthly_summary_covers_enabled_users baseState 2024 1 alice
    (by simp [baseState]) rfl
  ⟨h.2.1, h.2.2.2.2.2.2.2 rfl⟩

/-- C3: a second attendance record for the same (user, date) always fails
with the 409 conflict error carrying the same user-facing message, whether
the duplicate is seen by the pre-check or by the storage uniqueness
constraint after a concurrent insert won the race; the conflict is distinct
from a generic 400 validation error, and in either case this request
stores no record. -/
theorem attendance_duplicate_conflict (s : State) (inp : AttendanceInput)
    (concurrent : List AttendanceRecord) (uid : Nat) (d : CalDate)
    (hu : inp.user_id = some uid) (hd : inp.date = some d) :
    (hasRecord s.attendance uid d = true →
      attendanceCreate s inp concurrent = (s, .error (.conflict (dupMsg d))))
    ∧ (hasRecord s.attendance uid d = false → serializerValid s inp = true →
        hasRecord (s.attendance ++ concurrent) uid d = true →
        attendanceCreate s inp concurrent =
          ({ s with attendance := s.attendance ++ concurrent },
           .error (.conflict (dupMsg d))))
    ∧ (∀ msg, ApiError.conflict (dupMsg d) ≠ ApiError.badRequest msg)
    ∧ (ApiError.conflict (dupMsg d)).statusCode = 409 := by
  refine ⟨?_, ?_, ?_, rfl⟩
  · intro hpre
    simp [attendanceCreate, hu, hd, hpre]
  · intro hpre hvalid hdup
    have hstr : strContains (strLower uniqueErrText) "unique" = true := by decide
    simp [attendanceCreate, hu, hd, hpre, hvalid, hdup, hstr]
  · intro msg h
    exact ApiError.noConfusion h

/-- Witness for C3: the pre-check path on a stored duplicate, and the
constraint path where a concurrent request inserted the duplicate between
pre-check and write, yield the same conflict response. -/
theorem attendance_duplicate_conflict_witness :
    attendanceCreate dupState attInput []
        = (dupState, .error (.conflict (dupMsg jan5)))
    ∧ attendanceCreate baseState attInput [aliceJan5] =
        ({ baseState with attendance := baseState.attendance ++ [aliceJan5] },
         .error (.conflict (dupMsg jan5))) :=
  ⟨(attendance_duplicate_conflict dupState attInput [] 1 jan5 rfl rfl).1 rfl,
   (attendance_duplicate_conflict baseState attInput [aliceJan5] 1 jan5 rfl rfl).2.1
     rfl rfl rfl⟩

/-! Lemmas about the checkout loop. -/

theorem cartTotal_eq_sum (ps : List Product) (rows : List CartItem)
    (hex : ∀ ci ∈ rows, (findProduct ps ci.productId).isSome = true) :
    cartTotal ps rows = some ((rows.map (CartItem.item_total ps)).sum) := by
  induction rows with
  | nil => rfl
  | cons ci rest ih =>
    obtain ⟨p, hp⟩ := Option.isSome_iff_exists.mp (hex ci (List.mem_cons_self ci rest))
    have ih' := ih (fun cj hj => hex cj (List.mem_cons_of_mem ci hj))
    simp only [cartTotal, List.foldr_cons] at ih' ⊢
    rw [ih', hp]
    simp [CartItem.item_total, hp]

theorem processRows_spec (oid : Nat) (rows : List CartItem) :
    ∀ (ps : List Product),
      (∀ ci ∈ rows, (findProduct ps ci.productId).isSome = true) →
      rows.Pairwise (fun a b => a.productId ≠ b.productId) →
      ∃ ois ps2, processRows oid ps rows = some (ois, ps2)
        ∧ ois.map some = rows.map (snapRow oid ps)
        ∧ (∀ ci ∈ rows, findProduct ps2 ci.productId =
            (findProduct ps ci.productId).map
              (fun p => { p with stock := p.stock - ci.quantity }))
        ∧ (∀ pid, pid ∉ rows.map CartItem.productId →
            findProduct ps2 pid = findProduct ps pid) := by
  induction rows with
  | nil =>
    intro ps _ _
    exact ⟨[], ps, rfl, rfl, by simp, fun _ _ => rfl⟩
  | cons ci rest ih =>
    intro ps hex hnd
    obtain ⟨p, hp⟩ := Option.isSome_iff_exists.mp (hex ci (List.mem_cons_self ci rest))
    rw [List.pairwise_cons] at hnd
    have hne : ∀ cj ∈ rest,
        findProduct (updateStock ps ci.productId (fun st => st - ci.quantity))
          cj.productId = findProduct ps cj.productId := by
      intro cj hj
      exact findProduct_updateStock_ne _ _ _ _ (fun e => hnd.1 cj hj e.symm)
    have hex1 : ∀ cj ∈ rest,
        (findProduct (updateStock ps ci.productId (fun st => st - ci.quantity))
          cj.productId).isSome = true := by
      intro cj hj
      rw [hne cj hj]
      exact hex cj (List.mem_cons_of_mem ci hj)
    obtain ⟨ois, ps2, hrun, hsnap, hstocks, hother⟩ := ih _ hex1 hnd.2
    refine ⟨snapshotItem oid p ci :: ois, ps2, ?_, ?_, ?_, ?_⟩
    · rw [processRows, hp, hrun]
    · rw [List.map_cons, List.map_cons, hsnap]
      congr 1
      · simp [snapRow, hp]
      · exact List.map_congr_left (fun cj hj => by simp [snapRow, hne cj hj])
    · intro cj hj
      rcases List.mem_cons.mp hj with rfl | hj'
      · have hnotin : cj.productId ∉ rest.map CartItem.productId := by
          intro hmem
          obtain ⟨ck, hk, he⟩ := List.mem_map.mp hmem
          exact hnd.1 ck hk he.symm
        rw [hother cj.productId hnotin, findProduct_updateStock_self, hp]
      · rw [hstocks cj hj', hne cj hj']
    · intro pid hpid
      have h1 : ¬ (pid = ci.productId ∨ pid ∈ rest.map CartItem.productId) := by
        simpa using hpid
      push_neg at h1
      rw [hother pid h1.2, findProduct_updateStock_ne _ _ _ _ h1.1]

/-- C1: on a non-empty cart, checkout creates exactly one Completed order
whose total is the sum of the rows' item totals (price × quantity) and whose
item_count is the sum of the truncated quantities; it appends one OrderItem
per cart row snapshotting the product's name, emoji, price and weight flag;
it decrements each product's stock by the cart quantity; and it deletes all
of the user's cart rows. -/
theorem checkout_spec (s : State) (actor : User)
    (hne : userCart s actor.id ≠ [])
    (hex : ∀ ci ∈ userCart s actor.id,
      (findProduct s.products ci.productId).isSome = true)
    (hnd : (userCart s actor.id).Pairwise (fun a b => a.productId ≠ b.productId)) :
    ∃ ois,
      (checkout s actor).2 = .ok
        { id := s.nextOrderId
          userId := actor.id
          user_name := nameOrUsername actor
          total := ((userCart s actor.id).map (CartItem.item_total s.products)).sum
          item_count := ((userCart s actor.id).map (fun ci => truncQ ci.quantity)).sum
          status := OrderStatus.Completed }
      ∧ (checkout s actor).1.orders = s.orders ++
          [{ id := s.nextOrderId
             userId := actor.id
             user_name := nameOrUsername actor
             total := ((userCart s actor.id).map (CartItem.item_total s.products)).sum
             item_count := ((userCart s actor.id).map (fun ci => truncQ ci.quantity)).sum
             status := OrderStatus.Completed }]
      ∧ (checkout s actor).1.orderItems = s.orderItems ++ ois
      ∧ ois.map some = (userCart s actor.id).map (snapRow s.nextOrderId s.products)
      ∧ (∀ ci ∈ userCart s actor.id,
          findProduct (checkout s actor).1.products ci.productId =
            (findProduct s.products ci.productId).map
              (fun p => { p with stock := p.stock - ci.quantity }))
      ∧ (checkout s actor).1.cart
          = s.cart.filter (fun ci => !(ci.userId == actor.id))
      ∧ userCart (checkout s actor).1 actor.id = [] := by
  obtain ⟨ois, ps2, hrun, hsnap, hstocks, _⟩ :=
    processRows_spec s.nextOrderId (userCart s actor.id) s.products hex hnd
  have htot := cartTotal_eq_sum s.products (userCart s actor.id) hex
  have hemp : (userCart s actor.id).isEmpty = false := by
    cases h : userCart s actor.id
    · exact absurd h hne
    · rfl
  have hck : checkout s actor =
      ({ s with
          products := ps2
          orders := s.orders ++
            [{ id := s.nextOrderId
               userId := actor.id
               user_name := nameOrUsername actor
               total := ((userCart s actor.id).map (CartItem.item_total s.products)).sum
               item_count :=
                 ((userCart s actor.id).map (fun ci => truncQ ci.quantity)).sum
               status := OrderStatus.Completed }]
          orderItems := s.orderItems ++ ois
          cart := s.cart.filter (fun ci => !(ci.userId == actor.id))
          nextOrderId := s.nextOrderId + 1 },
       .ok { id := s.nextOrderId
             userId := actor.id
             user_name := nameOrUsername actor
             total := ((userCart s actor.id).map (CartItem.item_total s.products)).sum
             item_count :=
               ((userCart s actor.id).map (fun ci => truncQ ci.quantity)).sum
             status := OrderStatus.Completed }) := by
    rw [checkout]
    simp only [hemp, Bool.false_eq_true, if_false, htot, hrun]
  refine ⟨ois, ?_, ?_, ?_, hsnap, ?_, ?_, ?_⟩
  · rw [hck]
  · rw [hck]
  · rw [hck]
  · intro ci hci
    rw [hck]
    exact hstocks ci hci
  · rw [hck]
  · rw [hck]
    refine List.filter_eq_nil_iff.mpr ?_
    intro a ha
    have h2 := (List.mem_filter.mp ha).2
    simp only [Bool.not_eq_eq_eq_not, Bool.not_true] at h2
    simp [userCart] at *
    simp [h2]

/-- Witness for C1: on the spec's example cart the order totals 9.47 with
item_count 5, the two order items have item totals 7.47 and 2.00, the two
stocks drop from 10 to 7 and from 5 to 3, and the cart is emptied. -/
theorem checkout_spec_witness :
    userCart (checkout exampleCartState alice).1 alice.id = []
    ∧ (checkout exampleCartState alice).2 = .ok
        { id := 1, userId := 1, user_name := "Alice", total := 947/100,
          item_count := 5, status := OrderStatus.Completed }
    ∧ (checkout exampleCartState alice).1.orderItems.map OrderItem.item_total
        = [747/100, 2]
    ∧ (findProduct (checkout exampleCartState alice).1.products 1).map Product.stock
        = some 7
    ∧ (findProduct (checkout exampleCartState alice).1.products 2).map Product.stock
        = some 3 := by
  obtain ⟨ois, h1, h2, h3, h4, h5, h6, h7⟩ :=
    checkout_spec exampleCartState alice (by decide) (by decide) (by decide)
  refine ⟨h7, ?_, ?_, ?_, ?_⟩ <;>
    simp +decide [checkout, userCart, cartTotal, findProduct, processRows, updateStock,
      snapshotItem, truncQ, nameOrUsername, OrderItem.item_total, exampleCartState,
      baseState, alice, choc, gummy] <;>
    norm_num

theorem processRows_nonneg (oid : Nat) (rows : List CartItem) :
    ∀ (ps : List Product) (ois : List OrderItem) (ps2 : List Product),
      (ps.map Product.id).Nodup →
      (∀ p ∈ ps, 0 ≤ p.stock) →
      rows.Pairwise (fun a b => a.productId ≠ b.productId) →
      (∀ ci ∈ rows, ∀ p, findProduct ps ci.productId = some p →
        ci.quantity ≤ p.stock) →
      processRows oid ps rows = some (ois, ps2) →
      ∀ p ∈ ps2, 0 ≤ p.stock := by
  induction rows with
  | nil =>
    intro ps ois ps2 _ h0 _ _ hrun
    simp only [processRows] at hrun
    have hps : ps = ps2 := congrArg Prod.snd (Option.some.inj hrun)
    rw [← hps]
    exact h0
  | cons ci rest ih =>
    intro ps ois ps2 hndid h0 hnd hle hrun
    rw [List.pairwise_cons] at hnd
    rw [processRows] at hrun
    cases hp : findProduct ps ci.productId with
    | none => rw [hp] at hrun; simp at hrun
    | some p =>
      rw [hp] at hrun
      cases hrec : processRows oid
          (updateStock ps ci.productId (fun st => st - ci.quantity)) rest with
      | none => rw [hrec] at hrun; simp at hrun
      | some pr =>
        obtain ⟨ois', ps2'⟩ := pr
        rw [hrec] at hrun
        have hps2 : ps2' = ps2 := congrArg Prod.snd (Option.some.inj hrun)
        rw [← hps2]
        have h01 : ∀ q ∈ updateStock ps ci.productId (fun st => st - ci.quantity),
            0 ≤ q.stock := by
          intro q hq
          obtain ⟨r, hr, hqe⟩ := List.mem_map.mp hq
          by_cases hid : r.id = ci.productId
          · have hfr : findProduct ps ci.productId = some r :=
              findProduct_eq_of_nodup ps ci.productId r hndid hr hid
            rw [hp] at hfr
            have hrp : p = r := Option.some.inj hfr
            have hqty : ci.quantity ≤ r.stock := by
              rw [← hrp]
              exact hle ci (List.mem_cons_self ci rest) p hp
            rw [← hqe]
            simp only [hid, beq_self_eq_true, if_true]
            exact sub_nonneg.mpr hqty
          · rw [← hqe]
            simp only [beq_iff_eq, hid, if_false]
            exact h0 r hr
        refine ih _ ois' ps2' ?_ h01 hnd.2 ?_ hrec
        · rw [updateStock_map_id]
          exact hndid
        · intro cj hj q hqf
          have hne2 : cj.productId ≠ ci.productId := fun e => hnd.1 cj hj e.symm
          rw [findProduct_updateStock_ne _ _ _ _ hne2] at hqf
          exact hle cj (List.mem_cons_of_mem _ hj) q hqf

/-- C4 counterexample: from a reachable state (stock 10, cart quantity 100
created by the uncheck­ed fresh-row add path) checkout drives the product's
stock to −90 < 0, so stock nonnegativity is not an invariant. -/
theorem checkout_overdraws_stock :
    (findProduct (checkout overdraftState alice).1.products 1).map Product.stock
        = some (-90)
    ∧ ((-90 : Rat) < 0)
    ∧ overdraftState.cart = (addToCart baseState alice 1 100).1.cart := by
  refine ⟨?_, by norm_num, ?_⟩
  · simp +decide [checkout, userCart, cartTotal, findProduct, processRows, updateStock,
      snapshotItem, truncQ, nameOrUsername, overdraftState, baseState, alice, choc,
      gummy]
    norm_num
  · simp +decide [addToCart, findProduct, overdraftState, baseState, alice, choc, gummy]

/-- C4 (amended): stock nonnegativity is not invariant in general; it is
preserved by checkout exactly when every cart row's quantity is at most its
product's current stock, and restock always preserves it. -/
theorem checkout_preserves_nonneg_stock (s : State) (actor : User)
    (hndid : (s.products.map Product.id).Nodup)
    (h0 : ∀ p ∈ s.products, 0 ≤ p.stock)
    (hnd : (userCart s actor.id).Pairwise (fun a b => a.productId ≠ b.productId))
    (hle : ∀ ci ∈ userCart s actor.id, ∀ p,
        findProduct s.products ci.productId = some p → ci.quantity ≤ p.stock) :
    (∀ p ∈ (checkout s actor).1.products, 0 ≤ p.stock)
    ∧ (∀ (pid : Nat) (q : Rat), ∀ p ∈ (restock s actor pid q).1.products,
        0 ≤ p.stock) := by
  constructor
  · by_cases hemp : (userCart s actor.id).isEmpty = true
    · simp only [checkout, hemp, if_true]
      exact h0
    · cases htot : cartTotal s.products (userCart s actor.id) with
      | none =>
        have hps : (checkout s actor).1.products = s.products := by
          simp [checkout, hemp, htot]
        rw [hps]
        exact h0
      | some total =>
        cases hrun : processRows s.nextOrderId s.products (userCart s actor.id) with
        | none =>
          have hps : (checkout s actor).1.products = s.products := by
            simp [checkout, hemp, htot, hrun]
          rw [hps]
          exact h0
        | some pr =>
          obtain ⟨ois, ps2⟩ := pr
          have hps : (checkout s actor).1.products = ps2 := by
            simp [checkout, hemp, htot, hrun]
          rw [hps]
          exact processRows_nonneg s.nextOrderId (userCart s actor.id) s.products
            ois ps2 hndid h0 hnd hle hrun
  · intro pid q p hp
    cases hf : findProduct s.products pid with
    | none =>
      rw [restock, hf] at hp
      exact h0 p hp
    | some prod =>
      by_cases hq : q ≤ 0
      · rw [restock, hf] at hp
        simp only [hq, if_true] at hp
        exact h0 p hp
      · rw [restock, hf] at hp
        simp only [hq, if_false] at hp
        obtain ⟨r, hr, hqe⟩ := List.mem_map.mp hp
        by_cases hid : r.id = pid
        · rw [← hqe]
          simp only [hid, beq_self_eq_true, if_true]
          exact add_nonneg (h0 r hr) (le_of_lt (not_le.mp hq))
        · rw [← hqe]
          simp only [beq_iff_eq, hid, if_false]
          exact h0 r hr

/-- Witness for the amended C4: on the example cart (3 ≤ 10 and 2 ≤ 5) all
stocks stay nonnegative after checkout, and after any restock. -/
theorem checkout_preserves_nonneg_stock_witness :
    (∀ p ∈ (checkout exampleCartState alice).1.products, 0 ≤ p.stock)
    ∧ (∀ (pid : Nat) (q : Rat),
        ∀ p ∈ (restock exampleCartState alice pid q).1.products, 0 ≤ p.stock) :=
  checkout_preserves_nonneg_stock exampleCartState alice (by decide)
    (by
      intro p hp
      simp only [exampleCartState, baseState] at hp
      rcases List.mem_cons.mp hp with rfl | hp
      · norm_num [choc]
      · rcases List.mem_cons.mp hp with rfl | hp
        · norm_num [gummy]
        · simp at hp)
    (by decide)
    (by
      intro ci hci p hp
      obtain ⟨hci', -⟩ :
          (ci = (⟨1, 1, 3⟩ : CartItem) ∨ ci = (⟨1, 2, 2⟩ : CartItem))
            ∧ ci.userId = alice.id := by
        simpa [userCart, exampleCartState, baseState] using hci
      rcases hci' with rfl | rfl
      · have : p = choc := by
          have hp' : some choc = some p := hp
          exact (Option.some.inj hp').symm
        rw [this]
        norm_num [choc]
      · have : p = gummy := by
          have hp' : some gummy = some p := hp
          exact (Option.some.inj hp').symm
        rw [this]
        norm_num [gummy])

end SweetShop
